import Mathlib

/-!
Verification of the RGB-Node orchestration subsystem.

Shallow embedding, in Lean 4, of the queue / watcher / withdrawal code of the
repository (Python).  Each definition mirrors one Python function; dynamic
(duck-typed) dict fields are modelled with an explicit sum type `PyVal`, and
Python truthiness (where the code relies on it) is reproduced exactly.
Time (`time.time()`, `datetime.utcnow()`) and freshly generated identifiers
(`uuid.uuid4()`) are passed in as explicit parameters.
-/

namespace RGBNode

/-- A Python runtime value as it can appear in the `status` / `kind` fields of
a transfer dict: an enum object (which `hasattr(status, "name")` detects, the
payload being its `.name`), an `int`, a `str`, or `None`. -/
inductive PyVal
  | venum (name : String)
  | vint (n : Int)
  | vstr (s : String)
  | vnone
deriving DecidableEq, Repr

/-- A transfer dict as produced by the node and consumed by the workers
(see `workers/processors/transfer_utils.py` and `transfer_watcher.py`). -/
structure Transfer where
  status : PyVal
  kind : PyVal
  expiration : Option Int
  batch_transfer_idx : Option Int
  recipient_id : Option String
deriving DecidableEq, Repr

/-- ASCII model of Python `str.upper` on one character (all strings handled
by the workers are ASCII). -/
def pyUpperChar (c : Char) : Char :=
  if c.isLower then Char.ofNat (c.toNat - 32) else c

/-- ASCII model of Python `str.upper`. -/
def pyUpper (s : String) : String := ⟨s.data.map pyUpperChar⟩

/-- ASCII model of Python `str.lower` on one character. -/
def pyLowerChar (c : Char) : Char :=
  if c.isUpper then Char.ofNat (c.toNat + 32) else c

/-- ASCII model of Python `str.lower`. -/
def pyLower (s : String) : String := ⟨s.data.map pyLowerChar⟩

/-! ### transfer_utils.py -/

/-- `is_transfer_completed` from `workers/processors/transfer_utils.py`. -/
def is_transfer_completed (t : Transfer) : Bool :=
  match t.status with
  | .venum n => pyUpper n = "SETTLED" || pyUpper n = "FAILED"
  | .vint n => n = 2 || n = 3
  | .vstr s => pyUpper s = "SETTLED" || pyUpper s = "FAILED"
  | .vnone => false

/-- `is_transfer_expired` from `workers/processors/transfer_utils.py`.
`now` stands for the `int(time.time())` read inside the function.
The Python code guards with `if not expiration`, so an expiration of `0`
is treated like an absent one. -/
def is_transfer_expired (now : Int) (t : Transfer) : Bool :=
  match t.expiration with
  | none => false
  | some e =>
    if e = 0 then false
    else
      match t.kind with
      | .venum n => pyUpper n = "RECEIVE_BLIND" && e < now
      | .vint n => if n = 1 then e < now else false
      | .vstr s => pyUpper s = "RECEIVE_BLIND" && e < now
      | .vnone => false

/-- The status-normalisation block at the top of `can_cancel_transfer`
(`workers/processors/transfer_utils.py`, computing `status_normalized`):
enum objects contribute `.name.upper()`, the integer `0` maps to
`WAITING_COUNTERPARTY`, other integers to `str(status).upper()`, strings to
`.upper()`, and anything else to `str(status).upper()` (`None` to `"NONE"`). -/
def cancelStatusNorm (v : PyVal) : String :=
  match v with
  | .venum n => pyUpper n
  | .vint n => if n = 0 then "WAITING_COUNTERPARTY" else pyUpper (toString n)
  | .vstr s => pyUpper s
  | .vnone => "NONE"

/-- The kind-normalisation block of `can_cancel_transfer` (computing
`kind_name`): enum objects contribute `.name.upper()`, the integer `1` maps
to `RECEIVE_BLIND` and other integers to `None`, strings to `.upper()`, and
a falsy kind (`None`) to `None`. -/
def cancelKindName (v : PyVal) : Option String :=
  match v with
  | .venum n => some (pyUpper n)
  | .vint n => if n = 1 then some "RECEIVE_BLIND" else none
  | .vstr s => some (pyUpper s)
  | .vnone => none

/-- `can_cancel_transfer` from `workers/processors/transfer_utils.py`.
`dur` stands for the imported constant `RGB_INVOICE_DURATION_SECONDS`
(defined in `src/constant.py`, which is not part of the sources here; every
statement below is parametric in it), `now` for `int(time.time())`.
The Python code guards the expiration with `if not expiration`, so an
expiration of `0` is treated like an absent one. -/
def can_cancel_transfer (dur now : Int) (t : Transfer) : Bool :=
  if cancelStatusNorm t.status ≠ "WAITING_COUNTERPARTY" then false
  else
    match t.expiration with
    | none => false
    | some e =>
      if e = 0 then false
      else if e ≥ now then false
      else (cancelKindName t.kind = some "RECEIVE_BLIND") || (e + dur < now)

/-- `normalize_transfer_status` from `workers/utils.py`. -/
def normalize_transfer_status (status : PyVal) : String :=
  match status with
  | .venum n => pyLower n
  | .vint n => if n = 2 then "settled" else "failed"
  | .vstr s => pyLower s
  | .vnone => "none"

/-! ### Denotations of transfer status / kind representations

The workers receive `status` and `kind` in one of three canonical
representations (enum object, enum integer value, or string in any case);
the tables below are the ones written down in the code comments of
`transfer_utils.py`: `WAITING_COUNTERPARTY=0, WAITING_CONFIRMATIONS=1,
SETTLED=2, FAILED=3` and `RECEIVE_BLIND=1`. -/

/-- Abstract transfer status. -/
inductive TStatus
  | waitingCounterparty
  | waitingConfirmations
  | settled
  | failed
deriving DecidableEq, Repr

def TStatus.name : TStatus → String
  | .waitingCounterparty => "WAITING_COUNTERPARTY"
  | .waitingConfirmations => "WAITING_CONFIRMATIONS"
  | .settled => "SETTLED"
  | .failed => "FAILED"

def TStatus.val : TStatus → Int
  | .waitingCounterparty => 0
  | .waitingConfirmations => 1
  | .settled => 2
  | .failed => 3

/-- Abstract transfer kind (order of `rgb_lib.TransferKind`, with
`RECEIVE_BLIND = 1` as recorded in the code comments). -/
inductive TKind
  | issuance
  | receiveBlind
  | receiveWitness
  | sendKind
deriving DecidableEq, Repr

def TKind.name : TKind → String
  | .issuance => "ISSUANCE"
  | .receiveBlind => "RECEIVE_BLIND"
  | .receiveWitness => "RECEIVE_WITNESS"
  | .sendKind => "SEND"

def TKind.val : TKind → Int
  | .issuance => 0
  | .receiveBlind => 1
  | .receiveWitness => 2
  | .sendKind => 3

/-- `v` is a runtime representation of the abstract status `s`. -/
def statusRep (s : TStatus) (v : PyVal) : Prop :=
  v = .venum s.name ∨ v = .vint s.val ∨ ∃ str, v = .vstr str ∧ pyUpper str = s.name

/-- `v` is a runtime representation of the abstract kind `k`. -/
def kindRep (k : TKind) (v : PyVal) : Prop :=
  v = .venum k.name ∨ v = .vint k.val ∨ ∃ str, v = .vstr str ∧ pyUpper str = k.name

/-- The normalised status computed by `can_cancel_transfer` equals
`WAITING_COUNTERPARTY` exactly on representations of `WaitingCounterparty`. -/
theorem cancelStatusNorm_spec (s : TStatus) (v : PyVal) (hs : statusRep s v) :
    (cancelStatusNorm v = "WAITING_COUNTERPARTY") ↔ s = TStatus.waitingCounterparty := by
  rcases hs with h | h | ⟨str, h, hup⟩
  · subst h; cases s <;> decide
  · subst h; cases s <;> decide
  · subst h
    cases s <;> simp only [TStatus.name] at hup <;>
      simp only [cancelStatusNorm, hup] <;> decide

/-- The normalised kind computed by `can_cancel_transfer` equals
`RECEIVE_BLIND` exactly on representations of `ReceiveBlind`. -/
theorem cancelKindName_spec (k : TKind) (v : PyVal) (hk : kindRep k v) :
    (cancelKindName v = some "RECEIVE_BLIND") ↔ k = TKind.receiveBlind := by
  rcases hk with h | h | ⟨str, h, hup⟩
  · subst h; cases k <;> decide
  · subst h; cases k <;> decide
  · subst h
    cases k <;> simp only [TKind.name] at hup <;>
      simp only [cancelKindName, hup] <;> decide

/-- C2.  `can_cancel_transfer` returns `True` iff the transfer status is
`WaitingCounterparty`, the expiration is present, nonzero and strictly in the
past, and the kind is `ReceiveBlind` or
`expiration + RGB_INVOICE_DURATION_SECONDS < now`.  (The nonzero condition is
the amendment: Python `if not expiration` rejects an expiration of `0`.) -/
theorem C2_can_cancel_transfer_iff (dur now : Int) (t : Transfer)
    (s : TStatus) (k : TKind) (hs : statusRep s t.status) (hk : kindRep k t.kind) :
    can_cancel_transfer dur now t = true ↔
      (s = TStatus.waitingCounterparty ∧ ∃ e, t.expiration = some e ∧ e ≠ 0 ∧
        e < now ∧ (k = TKind.receiveBlind ∨ e + dur < now)) := by
  have hst := cancelStatusNorm_spec s t.status hs
  have hkd := cancelKindName_spec k t.kind hk
  by_cases hwc : cancelStatusNorm t.status = "WAITING_COUNTERPARTY"
  · have hs1 : s = TStatus.waitingCounterparty := hst.mp hwc
    cases hE : t.expiration with
    | none => simp [can_cancel_transfer, hwc, hE]
    | some e =>
      by_cases he0 : e = 0
      · subst he0
        simp [can_cancel_transfer, hwc, hE]
      · by_cases hlt : e < now
        · have hnge : ¬ (e ≥ now) := not_le.mpr hlt
          simp [can_cancel_transfer, hwc, hE, he0, hnge, hs1, hkd]
          exact fun _ => hlt
        · have hge : e ≥ now := not_lt.mp hlt
          simp [can_cancel_transfer, hwc, hE, he0, hge]
  · have hs1 : s ≠ TStatus.waitingCounterparty := fun h => hwc (hst.mpr h)
    simp [can_cancel_transfer, hwc, hs1]

/-- The concrete transfer C2 fails on: a `WaitingCounterparty` /
`ReceiveBlind` transfer whose expiration is present and equal to `0`. -/
def cexTransferC2 : Transfer :=
  { status := .venum "WAITING_COUNTERPARTY", kind := .venum "RECEIVE_BLIND",
    expiration := some 0, batch_transfer_idx := some 1,
    recipient_id := some "r1" }

/-- C2 counterexample to the claim as stated: at `now = 1000` the transfer
`cexTransferC2` has status `WaitingCounterparty`, a present expiration `0`
that is strictly in the past, and kind `ReceiveBlind`, so the claimed
predicate holds — yet `can_cancel_transfer` returns `False`, because the
Python code treats the falsy expiration `0` as absent. -/
theorem C2_claim_counterexample :
    statusRep TStatus.waitingCounterparty cexTransferC2.status ∧
    kindRep TKind.receiveBlind cexTransferC2.kind ∧
    (TStatus.waitingCounterparty = TStatus.waitingCounterparty ∧
      ∃ e, cexTransferC2.expiration = some e ∧ e < 1000 ∧
        (TKind.receiveBlind = TKind.receiveBlind ∨ e + 86400 < 1000)) ∧
    can_cancel_transfer 86400 1000 cexTransferC2 = false := by
  refine ⟨Or.inl rfl, Or.inl rfl, ⟨rfl, 0, rfl, by decide, Or.inl rfl⟩, by decide⟩

/-- Witness for C2: the amended equivalence evaluated on a concrete
cancellable transfer. -/
theorem C2_can_cancel_transfer_iff_witness :
    can_cancel_transfer 86400 1000
      { status := .venum "WAITING_COUNTERPARTY", kind := .venum "RECEIVE_BLIND",
        expiration := some 10, batch_transfer_idx := some 1,
        recipient_id := some "r1" } = true :=
  (C2_can_cancel_transfer_iff 86400 1000 _ TStatus.waitingCounterparty
    TKind.receiveBlind (Or.inl rfl) (Or.inl rfl)).mpr
    ⟨rfl, 10, rfl, by decide, by decide, Or.inl rfl⟩

/-! ### Queue layer: refresh jobs (src/src/queue/jobs.py)

The `refresh_jobs` table is modelled as a list of rows.  `MAX_RETRIES` is the
module-level constant `int(os.getenv("MAX_REFRESH_RETRIES", "10"))`, passed
explicitly.  `attempts = 0` and `error_message = NULL` are the column
defaults of rows inserted by `enqueue_refresh_job` (the INSERT sets neither
column). -/

structure JobRow where
  job_id : String
  xpub_van : String
  xpub_col : String
  master_fingerprint : String
  trigger : String
  recipient_id : Option String
  asset_id : Option String
  status : String
  attempts : Nat
  max_retries : Nat
  error_message : Option String
  created_at : Int
deriving DecidableEq, Repr

abbrev JobDB := List JobRow

/-- `enqueue_refresh_job` from `src/src/queue/jobs.py`: insert one `pending`
row.  `job_id` models the fresh `uuid.uuid4()`, `now` the SQL `NOW()`. -/
def enqueue_refresh_job (MAX_RETRIES : Nat) (job_id : String)
    (xpub_van xpub_col master_fingerprint trigger : String)
    (recipient_id asset_id : Option String) (now : Int) (db : JobDB) : JobDB :=
  db ++ [{ job_id := job_id, xpub_van := xpub_van, xpub_col := xpub_col,
           master_fingerprint := master_fingerprint, trigger := trigger,
           recipient_id := recipient_id, asset_id := asset_id,
           status := "pending", attempts := 0, max_retries := MAX_RETRIES,
           error_message := none, created_at := now }]

/-- `mark_job_failed` from `src/src/queue/jobs.py`: the UPDATE sets
`status = 'failed' if attempts >= MAX_RETRIES else 'pending'` — note that it
compares against the module-level `MAX_RETRIES`, not the row's own
`max_retries` column — and records `attempts` and `error_message`. -/
def mark_job_failed (MAX_RETRIES : Nat) (job_id error_message : String)
    (attempts : Nat) (db : JobDB) : JobDB :=
  db.map fun r =>
    if r.job_id = job_id then
      { r with status := if attempts ≥ MAX_RETRIES then "failed" else "pending",
               attempts := attempts, error_message := some error_message }
    else r

/-- C5 (amended).  `mark_job_failed` re-queues the job to `pending` when
`attempts` is strictly below the globally configured `MAX_RETRIES` (not the
row's own `max_retries` column) and sets it to `failed` otherwise; in both
cases the attempts count and error message are recorded on the row. -/
theorem C5_mark_job_failed (MAX_RETRIES : Nat) (jid err : String)
    (attempts : Nat) (db : JobDB) (r : JobRow)
    (hr : r ∈ mark_job_failed MAX_RETRIES jid err attempts db)
    (hid : r.job_id = jid) :
    r.status = (if attempts < MAX_RETRIES then "pending" else "failed") ∧
    r.attempts = attempts ∧ r.error_message = some err := by
  rcases List.mem_map.mp hr with ⟨r0, -, hr0⟩
  by_cases h0 : r0.job_id = jid
  · rw [if_pos h0] at hr0
    subst hr0
    refine ⟨?_, rfl, rfl⟩
    by_cases hlt : attempts < MAX_RETRIES
    · rw [if_pos hlt]
      show (if attempts ≥ MAX_RETRIES then "failed" else "pending") = _
      rw [if_neg (not_le.mpr hlt)]
    · rw [if_neg hlt]
      show (if attempts ≥ MAX_RETRIES then "failed" else "pending") = _
      rw [if_pos (not_lt.mp hlt)]
  · rw [if_neg h0] at hr0
    subst hr0
    exact absurd hid h0

/-- Concrete job row for the C5 counterexample: its own `max_retries`
column is 5, smaller than the configured global of 10. -/
def cexJobC5 : JobRow :=
  { job_id := "j1", xpub_van := "xv", xpub_col := "xc",
    master_fingerprint := "mf", trigger := "manual", recipient_id := none,
    asset_id := none, status := "processing", attempts := 6,
    max_retries := 5, error_message := none, created_at := 0 }

/-- C5 counterexample to the claim as stated: after
`mark_failed("j1", "boom", 7)` with configured `MAX_RETRIES = 10`, the row is
re-queued to `pending` although `attempts = 7` is not strictly less than the
job row's `max_retries = 5` — the code compares against the global constant,
not the row's column. -/
theorem C5_claim_counterexample :
    (mark_job_failed 10 "j1" "boom" 7 [cexJobC5]).map JobRow.status =
      ["pending"] ∧ ¬ (7 < cexJobC5.max_retries) := by decide

/-- Witness for C5: the amended statement applied to a concrete row. -/
theorem C5_mark_job_failed_witness :
    ∃ r ∈ mark_job_failed 10 "j1" "boom" 7 [cexJobC5],
      r.status = (if 7 < 10 then "pending" else "failed") ∧
      r.attempts = 7 ∧ r.error_message = some "boom" := by
  have hm : ({ cexJobC5 with status := "pending", attempts := 7, error_message := some "boom" } : JobRow) ∈ mark_job_failed 10 "j1" "boom" 7 [cexJobC5] := by decide
  exact ⟨_, hm, C5_mark_job_failed 10 "j1" "boom" 7 [cexJobC5] _ hm (by decide)⟩

/-! ### Timestamp normalisation (src/src/queue/jobs.py and watchers.py)

A `datetime` coming back from the database driver is modelled by its naive
wall-clock reading (in whole seconds) plus an optional UTC offset; `none`
models a naive datetime.  `datetime.timestamp()` follows CPython: an aware
datetime converts with its own offset, a naive one is interpreted in the
process-local timezone (modelled as a fixed offset `localOffset`). -/

structure PyDatetime where
  wallClock : Int
  utcOffset : Option Int
deriving DecidableEq, Repr

/-- CPython `datetime.timestamp()` under local offset `localOffset`. -/
def PyDatetime.timestamp (localOffset : Int) (dt : PyDatetime) : Int :=
  match dt.utcOffset with
  | some off => dt.wallClock - off
  | none => dt.wallClock - localOffset

/-- `dt.replace(tzinfo=timezone.utc)`. -/
def PyDatetime.replaceTzUtc (dt : PyDatetime) : PyDatetime :=
  { dt with utcOffset := some 0 }

/-- One field of `_normalize_timestamps` from `src/src/queue/jobs.py`:
`int(data[field].timestamp())`, with no handling of naive datetimes. -/
def normalizeJobTimestamp (localOffset : Int) (dt : PyDatetime) : Int :=
  dt.timestamp localOffset

/-- One field of `_normalize_watcher_timestamps` from
`src/src/queue/watchers.py`: a naive datetime is first tagged UTC
(`dt.replace(tzinfo=timezone.utc)`), then `int(dt.timestamp())`. -/
def normalizeWatcherTimestamp (localOffset : Int) (dt : PyDatetime) : Int :=
  match dt.utcOffset with
  | none => dt.replaceTzUtc.timestamp localOffset
  | some _ => dt.timestamp localOffset

/-- C9.  The watcher-side normalisation does interpret a naive datetime as
UTC (the result is the UTC wall-clock reading, for every local timezone),
but the job-side normalisation does not: under a non-UTC local offset a
naive `created_at` / `processed_at` is shifted by the local offset. -/
theorem C9_naive_timestamps :
    (∀ localOffset : Int, ∀ dt : PyDatetime, dt.utcOffset = none →
      normalizeWatcherTimestamp localOffset dt = dt.wallClock) ∧
    normalizeJobTimestamp 3600 { wallClock := 1000, utcOffset := none } = -2600 ∧
    normalizeJobTimestamp 3600 { wallClock := 1000, utcOffset := none } ≠ 1000 := by
  refine ⟨?_, by decide, by decide⟩
  intro off dt h
  simp [normalizeWatcherTimestamp, PyDatetime.timestamp, PyDatetime.replaceTzUtc, h]

/-- Witness for C9: the watcher-side statement applied to a concrete naive
datetime under local offset 3600. -/
theorem C9_naive_timestamps_witness :
    normalizeWatcherTimestamp 3600 { wallClock := 500, utcOffset := none } = 500 :=
  C9_naive_timestamps.1 3600 { wallClock := 500, utcOffset := none } rfl

/-! ### Queue layer: watchers (src/src/queue/watchers.py)

The `refresh_watchers` table, primary key `(xpub_van, recipient_id)`.
`expires_at` is stored by the Python code as a formatted UTC string built
from an epoch value and read back as an epoch value by
`_normalize_watcher_timestamps`; it is modelled directly as the epoch
integer. -/

structure WatcherRow where
  xpub_van : String
  xpub_col : String
  master_fingerprint : String
  recipient_id : String
  asset_id : Option String
  status : String
  refresh_count : Nat
  created_at : Int
  last_refresh : Option Int
  expires_at : Option Int
deriving DecidableEq, Repr

abbrev WatcherDB := List WatcherRow

/-- The SQL row filter `WHERE xpub_van = %s AND recipient_id = %s`. -/
def watcherKey (xv rid : String) (w : WatcherRow) : Bool :=
  w.xpub_van = xv && w.recipient_id = rid

/-- The update applied by the `ON CONFLICT` clause of `create_watcher`:
reset status and refresh_count, refresh expires_at, and overwrite
`xpub_col`, `master_fingerprint`, `asset_id` with the excluded values. -/
def createWatcherUpd (xc mf : String) (aid : Option String) (expires_at : Int)
    (w : WatcherRow) : WatcherRow :=
  { w with status := "watching", expires_at := some expires_at,
           refresh_count := 0, xpub_col := xc, master_fingerprint := mf,
           asset_id := aid }

/-- The expiry computation at the top of `create_watcher`:
`now + expiration_seconds` when the argument `is not None`, else
`now + WATCHER_TTL` — the asset_id plays no role in it. -/
def watcherExpiry (WATCHER_TTL : Int) (expiration_seconds : Option Int)
    (now : Int) : Int :=
  match expiration_seconds with
  | some s => now + s
  | none => now + WATCHER_TTL

theorem watcherExpiry_eq (TTL : Int) (expSecs : Option Int) (now : Int) :
    watcherExpiry TTL expSecs now = now + expSecs.getD TTL := by
  cases expSecs <;> rfl

/-- `create_watcher` from `src/src/queue/watchers.py`.  `WATCHER_TTL` models
`int(os.getenv("WATCHER_TTL", "86400"))`, `now` models `int(time.time())`.
The INSERT upserts on `(xpub_van, recipient_id)`; a fresh row gets the
column defaults `refresh_count = 0`, `last_refresh = NULL`. -/
def create_watcher (WATCHER_TTL : Int) (xpub_van xpub_col master_fingerprint
    recipient_id : String) (asset_id : Option String)
    (expiration_seconds : Option Int) (now : Int) (db : WatcherDB) : WatcherDB :=
  if db.any (watcherKey xpub_van recipient_id) then
    db.map fun w =>
      if watcherKey xpub_van recipient_id w then
        createWatcherUpd xpub_col master_fingerprint asset_id
          (watcherExpiry WATCHER_TTL expiration_seconds now) w
      else w
  else
    db ++ [{ xpub_van := xpub_van, xpub_col := xpub_col,
             master_fingerprint := master_fingerprint,
             recipient_id := recipient_id, asset_id := asset_id,
             status := "watching", refresh_count := 0, created_at := now,
             last_refresh := none,
             expires_at := some (watcherExpiry WATCHER_TTL expiration_seconds now) }]

/-- `get_watcher_status` from `src/src/queue/watchers.py` (SELECT by key). -/
def get_watcher_status (xv rid : String) (db : WatcherDB) : Option WatcherRow :=
  db.find? (watcherKey xv rid)

/-- `update_watcher_status` from `src/src/queue/watchers.py`: sets `status`
and `last_refresh = NOW()` on the keyed row, plus `refresh_count` when one
is passed. -/
def update_watcher_status (xv rid status : String)
    (refresh_count : Option Nat) (now : Int) (db : WatcherDB) : WatcherDB :=
  db.map fun w =>
    if watcherKey xv rid w then
      match refresh_count with
      | some rc => { w with status := status, last_refresh := some now,
                            refresh_count := rc }
      | none => { w with status := status, last_refresh := some now }
    else w

/-- `stop_watcher` from `src/src/queue/watchers.py` (DELETE by key). -/
def stop_watcher (xv rid : String) (db : WatcherDB) : WatcherDB :=
  db.filter fun w => !(watcherKey xv rid w)

/-- `get_active_watchers` from `src/src/queue/watchers.py`:
`status = 'watching' AND (expires_at IS NULL OR expires_at > NOW())`. -/
def get_active_watchers (now : Int) (db : WatcherDB) : WatcherDB :=
  db.filter fun w =>
    w.status = "watching" &&
      (match w.expires_at with
       | none => true
       | some e => now < e)

/-- Modelled from the spec: `update_watcher_asset_and_expiration` is
exported by `src/queue/__init__.py` and called by the watcher loop, but its
definition is missing from the sources; per the spec (§4.3 and the watcher
state machine, "if found: update watcher.asset_id and (if present)
expiration") it sets the keyed watcher's `asset_id` and, when an expiration
value is given, its `expires_at`. -/
def update_watcher_asset_and_expiration (xv rid : String) (aid : String)
    (expiration : Option Int) (db : WatcherDB) : WatcherDB :=
  db.map fun w =>
    if watcherKey xv rid w then
      { w with asset_id := some aid,
               expires_at := match expiration with
                             | some e => some e
                             | none => w.expires_at }
    else w

/-- Python truthiness of an optional string field of a job dict. -/
def optStrTruthy : Option String → Bool
  | none => false
  | some "" => false
  | some _ => true

/-- The guard of the special case in `process_job`
(`workers/processors/job_processor.py`):
`trigger == "invoice_created" and recipient_id and not asset_id`. -/
def invoiceCreatedSpecialCase (job : JobRow) : Bool :=
  job.trigger = "invoice_created" && optStrTruthy job.recipient_id &&
    !optStrTruthy job.asset_id

/-- The watcher effect of the special-case branch of `process_job` (taken
when `invoiceCreatedSpecialCase` holds): if a watcher for the job's
recipient already exists it is left alone, otherwise one is created with
`asset_id=None` and `expiration_seconds=180`. -/
def process_invoice_created_job (WATCHER_TTL : Int) (job : JobRow)
    (now : Int) (db : WatcherDB) : WatcherDB :=
  match get_watcher_status job.xpub_van (job.recipient_id.getD "") db with
  | some _ => db
  | none =>
    create_watcher WATCHER_TTL job.xpub_van job.xpub_col
      job.master_fingerprint (job.recipient_id.getD "") none (some 180) now db

/-- Filtering away the keyed rows commutes with a key-preserving row
update. -/
theorem filter_not_key_map (k : WatcherRow → Bool) (f : WatcherRow → WatcherRow)
    (hf : ∀ w, k w = true → k (f w) = true) (db : WatcherDB) :
    (db.map fun w => if k w then f w else w).filter (fun w => !(k w)) =
      db.filter (fun w => !(k w)) := by
  induction db with
  | nil => rfl
  | cons w0 ws ih =>
    by_cases h0 : k w0 = true
    · simp [List.filter_cons, h0, hf w0 h0, ih]
    · simp [List.filter_cons, h0, ih]

/-- Every row of the upsert result that matches the key carries the upserted
values. -/
theorem create_watcher_key_rows (TTL : Int) (xv xc mf rid : String)
    (aid : Option String) (expSecs : Option Int) (now : Int) (db : WatcherDB)
    (w : WatcherRow)
    (hw : w ∈ create_watcher TTL xv xc mf rid aid expSecs now db)
    (hk : watcherKey xv rid w = true) :
    w.status = "watching" ∧ w.refresh_count = 0 ∧ w.asset_id = aid ∧
      w.expires_at = some (now + expSecs.getD TTL) := by
  rw [← watcherExpiry_eq TTL expSecs now]
  unfold create_watcher at hw
  by_cases hany : db.any (watcherKey xv rid) = true
  · rw [if_pos hany] at hw
    rcases List.mem_map.mp hw with ⟨w0, -, hw0⟩
    by_cases h0 : watcherKey xv rid w0 = true
    · rw [if_pos h0] at hw0
      subst hw0
      exact ⟨rfl, rfl, rfl, rfl⟩
    · rw [if_neg h0] at hw0
      subst hw0
      exact absurd hk h0
  · rw [if_neg hany] at hw
    rcases List.mem_append.mp hw with h | h
    · exact absurd hk (fun hk2 => hany (List.any_eq_true.mpr ⟨w, h, hk2⟩))
    · rcases List.mem_singleton.mp h with rfl
      exact ⟨rfl, rfl, rfl, rfl⟩

/-- The upsert always leaves a row matching the key. -/
theorem create_watcher_key_exists (TTL : Int) (xv xc mf rid : String)
    (aid : Option String) (expSecs : Option Int) (now : Int) (db : WatcherDB) :
    ∃ w ∈ create_watcher TTL xv xc mf rid aid expSecs now db,
      watcherKey xv rid w = true := by
  unfold create_watcher
  by_cases hany : db.any (watcherKey xv rid) = true
  · rw [if_pos hany]
    rcases List.any_eq_true.mp hany with ⟨w0, hw0, h0⟩
    refine ⟨createWatcherUpd xc mf aid (watcherExpiry TTL expSecs now) w0, ?_, ?_⟩
    · exact List.mem_map.mpr ⟨w0, hw0, by rw [if_pos h0]⟩
    · simpa [createWatcherUpd, watcherKey] using h0
  · rw [if_neg hany]
    refine ⟨_, List.mem_append_right _ (List.mem_singleton.mpr rfl), ?_⟩
    simp [watcherKey]

/-- Rows not matching the key pass through the upsert unchanged. -/
theorem create_watcher_other_rows (TTL : Int) (xv xc mf rid : String)
    (aid : Option String) (expSecs : Option Int) (now : Int) (db : WatcherDB) :
    (create_watcher TTL xv xc mf rid aid expSecs now db).filter
        (fun w => !(watcherKey xv rid w)) =
      db.filter (fun w => !(watcherKey xv rid w)) := by
  unfold create_watcher
  by_cases hany : db.any (watcherKey xv rid) = true
  · rw [if_pos hany]
    exact filter_not_key_map _ _
      (fun w hw => by simpa [createWatcherUpd, watcherKey] using hw) db
  · rw [if_neg hany]
    simp [List.filter_append, watcherKey]

/-- C6 (amended).  `create_watcher` upserts keyed on
`(xpub_van, recipient_id)`: on conflict it resets status to `watching`,
resets `refresh_count` to 0 and refreshes `expires_at`, while rows with
other keys pass through unchanged — but the TTL is
`expiration_seconds` when that argument is given and the `WATCHER_TTL`
default (86400) otherwise, independent of `asset_id`; the 180-second TTL
arises only because the `invoice_created`-without-asset branch of
`process_job` passes `expiration_seconds = 180`. -/
theorem C6_create_watcher_upsert (TTL : Int) (xv xc mf rid : String)
    (aid : Option String) (expSecs : Option Int) (now : Int) (db : WatcherDB) :
    (∀ w ∈ create_watcher TTL xv xc mf rid aid expSecs now db,
        watcherKey xv rid w = true →
          w.status = "watching" ∧ w.refresh_count = 0 ∧ w.asset_id = aid ∧
            w.expires_at = some (now + expSecs.getD TTL)) ∧
    (∃ w ∈ create_watcher TTL xv xc mf rid aid expSecs now db,
        watcherKey xv rid w = true) ∧
    ((create_watcher TTL xv xc mf rid aid expSecs now db).filter
        (fun w => !(watcherKey xv rid w)) =
      db.filter (fun w => !(watcherKey xv rid w))) ∧
    (∀ job : JobRow, invoiceCreatedSpecialCase job = true →
      get_watcher_status job.xpub_van (job.recipient_id.getD "") db = none →
      ∀ w ∈ process_invoice_created_job TTL job now db,
        watcherKey job.xpub_van (job.recipient_id.getD "") w = true →
          w.asset_id = none ∧ w.expires_at = some (now + 180)) := by
  refine ⟨fun w hw hk => create_watcher_key_rows TTL xv xc mf rid aid expSecs now db w hw hk,
    create_watcher_key_exists TTL xv xc mf rid aid expSecs now db,
    create_watcher_other_rows TTL xv xc mf rid aid expSecs now db,
    fun job _ hnone w hw hk => ?_⟩
  unfold process_invoice_created_job at hw
  rw [hnone] at hw
  have h := create_watcher_key_rows TTL job.xpub_van job.xpub_col
    job.master_fingerprint (job.recipient_id.getD "") none (some 180) now db w hw hk
  exact ⟨h.2.2.1, h.2.2.2⟩

/-- C6 counterexample to the claim as stated: `create_watcher` invoked with
`asset_id = None` and no `expiration_seconds` (exactly the call made by
`WatcherLifecycle.ensure_watcher_exists` for an asset-less watcher) stores
`expires_at = now + 86400`, not the claimed short `now + 180`. -/
theorem C6_claim_counterexample :
    (create_watcher 86400 "xv" "xc" "mf" "r1" none none 0 []).map
        WatcherRow.expires_at = [some 86400] ∧
      (some (86400 : Int) ≠ some (180 : Int)) := by decide

/-- Concrete `invoice_created` job (no asset) for the C6 witness. -/
def invoiceJobC6 : JobRow :=
  { job_id := "j6", xpub_van := "xv6", xpub_col := "xc6",
    master_fingerprint := "mf6", trigger := "invoice_created",
    recipient_id := some "r6", asset_id := none, status := "processing",
    attempts := 0, max_retries := 10, error_message := none, created_at := 0 }

/-- The watcher row that `process_invoice_created_job` creates for
`invoiceJobC6` at time 0 on an empty table. -/
def invoiceWatcherRowC6 : WatcherRow :=
  { xpub_van := "xv6", xpub_col := "xc6", master_fingerprint := "mf6",
    recipient_id := "r6", asset_id := none, status := "watching",
    refresh_count := 0, created_at := 0, last_refresh := none,
    expires_at := some 180 }

/-- Witness for C6: the invoice-path conjunct applied to a concrete job. -/
theorem C6_create_watcher_upsert_witness :
    invoiceWatcherRowC6.asset_id = none ∧
      invoiceWatcherRowC6.expires_at = some ((0 : Int) + 180) :=
  (C6_create_watcher_upsert 86400 "xv" "xc" "mf" "r1" none none 0 []).2.2.2
    invoiceJobC6 (by decide) (by decide) invoiceWatcherRowC6 (by decide)
    (by decide)

/-! ### Recovery (src/src/queue/recovery.py)

`recover_active_watchers` reads the active watchers and enqueues one
`recovery` job per watcher; it performs no watcher writes, so the watcher
table is a read-only input here.  `uuid i` supplies the fresh
`uuid.uuid4()` of the i-th enqueue, and `fails i = true` models that
`enqueue_refresh_job` call raising (the loop logs the error and
continues). -/

/-- The row `enqueue_refresh_job` inserts for one recovered watcher. -/
def recoveryJob (MAXR : Nat) (jid : String) (now : Int) (w : WatcherRow) :
    JobRow :=
  { job_id := jid, xpub_van := w.xpub_van, xpub_col := w.xpub_col,
    master_fingerprint := w.master_fingerprint, trigger := "recovery",
    recipient_id := none, asset_id := none, status := "pending",
    attempts := 0, max_retries := MAXR, error_message := none,
    created_at := now }

/-- The for-loop of `recover_active_watchers`, returning the job table and
the `recovered` counter. -/
def recoverLoop (MAXR : Nat) (uuid : Nat → String) (fails : Nat → Bool)
    (now : Int) : Nat → List WatcherRow → JobDB → JobDB × Nat
  | _, [], jobs => (jobs, 0)
  | i, w :: ws, jobs =>
    if fails i then recoverLoop MAXR uuid fails now (i + 1) ws jobs
    else
      let jobs2 := enqueue_refresh_job MAXR (uuid i) w.xpub_van w.xpub_col
        w.master_fingerprint "recovery" none none now jobs
      let r := recoverLoop MAXR uuid fails now (i + 1) ws jobs2
      (r.1, r.2 + 1)

/-- `recover_active_watchers` from `src/src/queue/recovery.py`. -/
def recover_active_watchers (MAXR : Nat) (uuid : Nat → String)
    (fails : Nat → Bool) (now : Int) (wdb : WatcherDB) (jobs : JobDB) :
    JobDB × Nat :=
  recoverLoop MAXR uuid fails now 0 (get_active_watchers now wdb) jobs

/-- The jobs the recovery loop appends: one per non-failing watcher. -/
def recoveryJobs (MAXR : Nat) (uuid : Nat → String) (fails : Nat → Bool)
    (now : Int) : Nat → List WatcherRow → JobDB
  | _, [] => []
  | i, w :: ws =>
    if fails i then recoveryJobs MAXR uuid fails now (i + 1) ws
    else recoveryJob MAXR (uuid i) now w ::
      recoveryJobs MAXR uuid fails now (i + 1) ws

/-- Erase the (freshly generated) job id for up-to-id comparison. -/
def stripJobId (j : JobRow) : JobRow := { j with job_id := "" }

theorem recoverLoop_append (MAXR : Nat) (uuid : Nat → String)
    (fails : Nat → Bool) (now : Int) :
    ∀ (ws : List WatcherRow) (i : Nat) (jobs : JobDB),
      (recoverLoop MAXR uuid fails now i ws jobs).1 =
        jobs ++ recoveryJobs MAXR uuid fails now i ws := by
  intro ws
  induction ws with
  | nil => intro i jobs; simp [recoverLoop, recoveryJobs]
  | cons w ws ih =>
    intro i jobs
    by_cases hf : fails i = true
    · simp [recoverLoop, recoveryJobs, hf, ih]
    · simp [recoverLoop, recoveryJobs, hf, ih, enqueue_refresh_job,
        recoveryJob]

theorem mem_recoveryJobs (MAXR : Nat) (uuid : Nat → String)
    (fails : Nat → Bool) (now : Int) :
    ∀ (ws : List WatcherRow) (i : Nat) (j : JobRow),
      j ∈ recoveryJobs MAXR uuid fails now i ws →
        j.trigger = "recovery" ∧ j.status = "pending" := by
  intro ws
  induction ws with
  | nil => intro i j hj; simp [recoveryJobs] at hj
  | cons w ws ih =>
    intro i j hj
    by_cases hf : fails i = true
    · rw [recoveryJobs, if_pos hf] at hj
      exact ih (i + 1) j hj
    · rw [recoveryJobs, if_neg hf] at hj
      rcases List.mem_cons.mp hj with rfl | hj
      · exact ⟨rfl, rfl⟩
      · exact ih (i + 1) j hj

theorem recoveryJobs_stripId (MAXR : Nat) (u1 u2 : Nat → String)
    (fails : Nat → Bool) (now : Int) :
    ∀ (ws : List WatcherRow) (i : Nat),
      (recoveryJobs MAXR u1 fails now i ws).map stripJobId =
        (recoveryJobs MAXR u2 fails now i ws).map stripJobId := by
  intro ws
  induction ws with
  | nil => intro i; rfl
  | cons w ws ih =>
    intro i
    by_cases hf : fails i = true
    · rw [recoveryJobs, recoveryJobs, if_pos hf, if_pos hf]
      exact ih (i + 1)
    · rw [recoveryJobs, recoveryJobs, if_neg hf, if_neg hf]
      simp only [List.map_cons]
      rw [ih (i + 1)]
      rfl

theorem recoveryJobs_noFail (MAXR : Nat) (uuid : Nat → String) (now : Int) :
    ∀ (ws : List WatcherRow) (i : Nat),
      (recoveryJobs MAXR uuid (fun _ => false) now i ws).map stripJobId =
        ws.map (recoveryJob MAXR "" now) := by
  intro ws
  induction ws with
  | nil => intro i; rfl
  | cons w ws ih =>
    intro i
    rw [recoveryJobs, if_neg (by simp)]
    simp only [List.map_cons]
    rw [ih (i + 1)]
    rfl

/-- C8.  `recover_active_watchers` appends exactly one pending `recovery`
job per currently-active watcher (the non-failing ones, when individual
enqueues fail, the loop continuing past them), performs no watcher writes,
and a second run with no intervening work appends a job list identical up
to the freshly generated `job_id` values. -/
theorem C8_recover_active_watchers (MAXR : Nat) (u1 u2 : Nat → String)
    (fails : Nat → Bool) (now : Int) (wdb : WatcherDB) (jobs : JobDB) :
    (recover_active_watchers MAXR u1 fails now wdb jobs).1 =
      jobs ++ recoveryJobs MAXR u1 fails now 0 (get_active_watchers now wdb) ∧
    (∀ j ∈ recoveryJobs MAXR u1 fails now 0 (get_active_watchers now wdb),
        j.trigger = "recovery" ∧ j.status = "pending") ∧
    ((recoveryJobs MAXR u1 (fun _ => false) now 0
        (get_active_watchers now wdb)).map stripJobId =
      (get_active_watchers now wdb).map (recoveryJob MAXR "" now)) ∧
    (recover_active_watchers MAXR u2 fails now wdb
        (jobs ++ recoveryJobs MAXR u1 fails now 0
          (get_active_watchers now wdb))).1 =
      (jobs ++ recoveryJobs MAXR u1 fails now 0 (get_active_watchers now wdb))
        ++ recoveryJobs MAXR u2 fails now 0 (get_active_watchers now wdb) ∧
    (recoveryJobs MAXR u1 fails now 0 (get_active_watchers now wdb)).map
        stripJobId =
      (recoveryJobs MAXR u2 fails now 0 (get_active_watchers now wdb)).map
        stripJobId := by
  refine ⟨recoverLoop_append MAXR u1 fails now _ 0 jobs,
    fun j hj => mem_recoveryJobs MAXR u1 fails now _ 0 j hj,
    recoveryJobs_noFail MAXR u1 now _ 0,
    recoverLoop_append MAXR u2 fails now _ 0 _,
    recoveryJobs_stripId MAXR u1 u2 fails now _ 0⟩

/-- Concrete active watcher for the C8 witness. -/
def activeWatcherC8 : WatcherRow :=
  { xpub_van := "xv8", xpub_col := "xc8", master_fingerprint := "mf8",
    recipient_id := "r8", asset_id := some "a8", status := "watching",
    refresh_count := 2, created_at := 0, last_refresh := none,
    expires_at := some 100 }

/-- Witness for C8: the first and last conjuncts evaluated on a one-watcher
table with two different id supplies. -/
theorem C8_recover_active_watchers_witness :
    (recover_active_watchers 10 (fun _ => "id1") (fun _ => false) 5
        [activeWatcherC8] []).1 =
      [] ++ recoveryJobs 10 (fun _ => "id1") (fun _ => false) 5 0
        (get_active_watchers 5 [activeWatcherC8]) ∧
    (recoveryJobs 10 (fun _ => "id1") (fun _ => false) 5 0
        (get_active_watchers 5 [activeWatcherC8])).map stripJobId =
      (recoveryJobs 10 (fun _ => "id2") (fun _ => false) 5 0
        (get_active_watchers 5 [activeWatcherC8])).map stripJobId :=
  ⟨(C8_recover_active_watchers 10 (fun _ => "id1") (fun _ => "id2")
      (fun _ => false) 5 [activeWatcherC8] []).1,
   (C8_recover_active_watchers 10 (fun _ => "id1") (fun _ => "id2")
      (fun _ => false) 5 [activeWatcherC8] []).2.2.2.2⟩

/-! ### Withdrawals (src/src/bitcoinl1/model.py, withdrawal_storage.py,
routes.py, withdrawal_orchestrator.py)

The in-memory store `withdrawals: dict[str, WithdrawalState]` is modelled as
an insertion-ordered list (Python dicts preserve insertion order, and
overwriting a key keeps its position — here keys are the fresh
`withdrawal_id`s).  The nested `LightningAsset` model is abstracted to its
serialized JSON text. -/

inductive WithdrawalStatus
  | REQUESTED
  | CLOSING_CHANNELS
  | WAITING_CLOSE_CONFIRMATIONS
  | WAITING_BALANCE_UPDATE
  | SWEEPING_OUTPUTS
  | BROADCASTED
  | CONFIRMED
  | FAILED
deriving DecidableEq, Repr

structure WithdrawalState where
  withdrawal_id : String
  idempotency_key : String
  address_or_rgbinvoice : String
  amount_sats_requested : Option Int
  amount_sats_sent : Option Int
  asset : Option String
  source : String
  channel_ids_to_close : List String
  close_txids : List String
  sweep_txid : Option String
  fee_sats : Option Int
  fee_rate_sat_per_vb : Option Int
  fee_rate : Option Int
  close_mode : String
  deduct_fee_from_amount : Bool
  baseline_balance_sats : Option Int
  balance_wait_started_at : Option Int
  status : WithdrawalStatus
  error_code : Option String
  error_message : Option String
  retryable : Bool
  attempt_count : Nat
  last_attempt_at : Option Int
  created_at : Int
  updated_at : Int
deriving DecidableEq, Repr

abbrev WithdrawalDB := List WithdrawalState

/-- `get_withdrawal_by_idempotency_key` from
`src/src/bitcoinl1/withdrawal_storage.py`: first value with the key in
insertion order. -/
def get_withdrawal_by_idempotency_key (key : String) (db : WithdrawalDB) :
    Option WithdrawalState :=
  db.find? fun w => w.idempotency_key = key

/-- `save_withdrawal` from `withdrawal_storage.py`:
`withdrawals[w.withdrawal_id] = w`. -/
def save_withdrawal (w : WithdrawalState) (db : WithdrawalDB) : WithdrawalDB :=
  if db.any fun x => x.withdrawal_id = w.withdrawal_id then
    db.map fun x => if x.withdrawal_id = w.withdrawal_id then w else x
  else db ++ [w]

/-- The `WithdrawRequestModel` of `src/src/bitcoinl1/model.py` (the decoded
request body of `withdraw-end`). -/
structure WithdrawRequestModel where
  address_or_rgbinvoice : String
  amount_sats : Option Int
  asset : Option String
  fee_rate : Int
  deduct_fee_from_amount : Bool
deriving DecidableEq, Repr

/-- `json.dumps(withdraw_req.model_dump(), sort_keys=True)`: the five model
fields in sorted key order with the default separators. -/
def dumpWithdrawRequest (r : WithdrawRequestModel) : String :=
  "\x7b\"address_or_rgbinvoice\": \"" ++ r.address_or_rgbinvoice ++
  "\", \"amount_sats\": " ++
  (match r.amount_sats with
   | none => "null"
   | some n => toString n) ++
  ", \"asset\": " ++
  (match r.asset with
   | none => "null"
   | some a => a) ++
  ", \"deduct_fee_from_amount\": " ++
  (if r.deduct_fee_from_amount then "true" else "false") ++
  ", \"fee_rate\": " ++ toString r.fee_rate ++ "\x7d"

/-- `idempotency_key = f"withdraw_\x7brequest_hash\x7d"` where
`request_hash = hashlib.sha256(dump).hexdigest()`; the SHA-256 primitive is
an external library function and enters the embedding as the parameter
`sha256hex`. -/
def idempotencyKey (sha256hex : String → String) (r : WithdrawRequestModel) :
    String :=
  "withdraw_" ++ sha256hex (dumpWithdrawRequest r)

/-- Python `str.startswith`. -/
def pyStartsWith (s p : String) : Bool := p.data.isPrefixOf s.data

structure WithdrawResponse where
  withdrawal_id : String
  status : WithdrawalStatus
deriving DecidableEq, Repr

inductive WithdrawEndResult
  | httpError (status_code : Nat) (detail : String)
  | ok (resp : WithdrawResponse) (db : WithdrawalDB)
deriving DecidableEq, Repr

/-- The fresh `WithdrawalState` the RGB branch of `withdraw-end` saves. -/
def newWithdrawalRgb (key : String) (req : WithdrawRequestModel)
    (newId : String) (now : Int) : WithdrawalState :=
  { withdrawal_id := newId, idempotency_key := key,
    address_or_rgbinvoice := req.address_or_rgbinvoice,
    amount_sats_requested := none, amount_sats_sent := none,
    asset := req.asset, source := "channels_only",
    channel_ids_to_close := [], close_txids := [], sweep_txid := none,
    fee_sats := none, fee_rate_sat_per_vb := none,
    fee_rate := some req.fee_rate, close_mode := "cooperative",
    deduct_fee_from_amount := req.deduct_fee_from_amount,
    baseline_balance_sats := none, balance_wait_started_at := none,
    status := .REQUESTED, error_code := none, error_message := none,
    retryable := false, attempt_count := 0, last_attempt_at := none,
    created_at := now, updated_at := now }

/-- The fresh `WithdrawalState` the BTC branch of `withdraw-end` saves. -/
def newWithdrawalBtc (key : String) (req : WithdrawRequestModel)
    (amt : Int) (newId : String) (now : Int) : WithdrawalState :=
  { withdrawal_id := newId, idempotency_key := key,
    address_or_rgbinvoice := req.address_or_rgbinvoice,
    amount_sats_requested := some amt, amount_sats_sent := none,
    asset := req.asset, source := "channels_only",
    channel_ids_to_close := [], close_txids := [], sweep_txid := none,
    fee_sats := none, fee_rate_sat_per_vb := some req.fee_rate,
    fee_rate := some req.fee_rate, close_mode := "cooperative",
    deduct_fee_from_amount := req.deduct_fee_from_amount,
    baseline_balance_sats := none, balance_wait_started_at := none,
    status := .REQUESTED, error_code := none, error_message := none,
    retryable := false, attempt_count := 0, last_attempt_at := none,
    created_at := now, updated_at := now }

/-- The `withdraw-end` handler core (`src/src/bitcoinl1/routes.py`, after
decoding the signed psbt into a `WithdrawRequestModel`): dispatch on
`address_or_rgbinvoice.startswith("rgb:")`, validate, compute the
idempotency key, return the existing withdrawal when one carries the key,
else save a fresh `REQUESTED` withdrawal and return its id.  `newId` models
`uuid.uuid4()`, `now` models `int(datetime.utcnow().timestamp())`; the
`asyncio.create_task(process_withdrawal(...))` started after saving mutates
state only through the orchestrator, outside this handler. -/
def withdraw_end (sha256hex : String → String) (req : WithdrawRequestModel)
    (newId : String) (now : Int) (db : WithdrawalDB) : WithdrawEndResult :=
  if pyStartsWith req.address_or_rgbinvoice "rgb:" then
    match req.asset with
    | none =>
      .httpError 400 "asset is required when address_or_rgbinvoice is an RGB invoice"
    | some _ =>
      match get_withdrawal_by_idempotency_key (idempotencyKey sha256hex req) db with
      | some existing => .ok ⟨existing.withdrawal_id, existing.status⟩ db
      | none =>
        .ok ⟨newId, .REQUESTED⟩
          (save_withdrawal
            (newWithdrawalRgb (idempotencyKey sha256hex req) req newId now) db)
  else
    match req.amount_sats with
    | none => .httpError 400 "amount_sats is required for BTC withdrawal"
    | some amt =>
      match get_withdrawal_by_idempotency_key (idempotencyKey sha256hex req) db with
      | some existing => .ok ⟨existing.withdrawal_id, existing.status⟩ db
      | none =>
        .ok ⟨newId, .REQUESTED⟩
          (save_withdrawal
            (newWithdrawalBtc (idempotencyKey sha256hex req) req amt newId now) db)

/-- find? over an append whose first part has no hit. -/
theorem find?_append_none {α : Type} (p : α → Bool) (l1 l2 : List α)
    (h : l1.find? p = none) : (l1 ++ l2).find? p = l2.find? p := by
  induction l1 with
  | nil => rfl
  | cons a l ih =>
    by_cases ha : p a = true
    · simp [List.find?_cons, ha] at h
    · simp only [List.find?_cons, ha] at h
      rw [List.cons_append]
      simp only [List.find?_cons, ha]
      exact ih h

/-- Saving a withdrawal whose id is absent appends it. -/
theorem save_withdrawal_fresh (w : WithdrawalState) (db : WithdrawalDB)
    (h : db.any (fun x => x.withdrawal_id = w.withdrawal_id) = false) :
    save_withdrawal w db = db ++ [w] := by
  unfold save_withdrawal
  rw [h]
  rfl

/-- C1.  `withdraw-end` is idempotent: the idempotency key is the
deterministic function `idempotencyKey` of the request body alone, so two
calls with the same body compute the same key; and once a call has
succeeded, a second call with the same body finds the stored withdrawal
under that key and returns its `withdrawal_id` (the one the first call
returned) and status, leaving the store unchanged — no new record is
created.  `hfresh` states that `id1` is fresh, as a `uuid.uuid4()` is. -/
theorem C1_withdraw_end_idempotent (sha256hex : String → String)
    (req : WithdrawRequestModel) (id1 id2 : String) (now1 now2 : Int)
    (db db1 : WithdrawalDB) (r1 : WithdrawResponse)
    (hfresh : db.any (fun x => x.withdrawal_id = id1) = false)
    (h1 : withdraw_end sha256hex req id1 now1 db = .ok r1 db1) :
    ∃ w : WithdrawalState,
      get_withdrawal_by_idempotency_key (idempotencyKey sha256hex req) db1 =
          some w ∧
        w.withdrawal_id = r1.withdrawal_id ∧
        withdraw_end sha256hex req id2 now2 db1 =
          .ok ⟨w.withdrawal_id, w.status⟩ db1 := by
  unfold withdraw_end at h1
  by_cases hrgb : pyStartsWith req.address_or_rgbinvoice "rgb:" = true
  · rw [if_pos hrgb] at h1
    cases hA : req.asset with
    | none => rw [hA] at h1; simp at h1
    | some a =>
      rw [hA] at h1
      cases hF : get_withdrawal_by_idempotency_key
          (idempotencyKey sha256hex req) db with
      | some ex =>
        rw [hF] at h1
        rw [WithdrawEndResult.ok.injEq] at h1
        obtain ⟨hr, hdb⟩ := h1
        subst hdb
        refine ⟨ex, hF, ?_, ?_⟩
        · rw [← hr]
        · unfold withdraw_end
          rw [if_pos hrgb, hA, hF]
      | none =>
        rw [hF] at h1
        rw [WithdrawEndResult.ok.injEq] at h1
        obtain ⟨hr, hdb⟩ := h1
        rw [save_withdrawal_fresh _ db hfresh] at hdb
        subst hdb
        have hFind : get_withdrawal_by_idempotency_key
            (idempotencyKey sha256hex req)
            (db ++ [newWithdrawalRgb (idempotencyKey sha256hex req) req id1 now1]) =
            some (newWithdrawalRgb (idempotencyKey sha256hex req) req id1 now1) := by
          unfold get_withdrawal_by_idempotency_key at hF ⊢
          rw [find?_append_none _ _ _ hF]
          simp [List.find?, newWithdrawalRgb]
        refine ⟨_, hFind, ?_, ?_⟩
        · rw [← hr]; rfl
        · unfold withdraw_end
          rw [if_pos hrgb, hA, hFind]
  · rw [if_neg hrgb] at h1
    cases hA : req.amount_sats with
    | none => rw [hA] at h1; simp at h1
    | some amt =>
      rw [hA] at h1
      cases hF : get_withdrawal_by_idempotency_key
          (idempotencyKey sha256hex req) db with
      | some ex =>
        rw [hF] at h1
        rw [WithdrawEndResult.ok.injEq] at h1
        obtain ⟨hr, hdb⟩ := h1
        subst hdb
        refine ⟨ex, hF, ?_, ?_⟩
        · rw [← hr]
        · unfold withdraw_end
          rw [if_neg hrgb, hA, hF]
      | none =>
        rw [hF] at h1
        rw [WithdrawEndResult.ok.injEq] at h1
        obtain ⟨hr, hdb⟩ := h1
        rw [save_withdrawal_fresh _ db hfresh] at hdb
        subst hdb
        have hFind : get_withdrawal_by_idempotency_key
            (idempotencyKey sha256hex req)
            (db ++ [newWithdrawalBtc (idempotencyKey sha256hex req) req amt id1 now1]) =
            some (newWithdrawalBtc (idempotencyKey sha256hex req) req amt id1 now1) := by
          unfold get_withdrawal_by_idempotency_key at hF ⊢
          rw [find?_append_none _ _ _ hF]
          simp [List.find?, newWithdrawalBtc]
        refine ⟨_, hFind, ?_, ?_⟩
        · rw [← hr]; rfl
        · unfold withdraw_end
          rw [if_neg hrgb, hA, hFind]

/-- Concrete BTC withdrawal request for the C1 witness. -/
def reqC1 : WithdrawRequestModel :=
  { address_or_rgbinvoice := "bc1qdest", amount_sats := some 5,
    asset := none, fee_rate := 2, deduct_fee_from_amount := true }

/-- The withdrawal the first `withdraw-end` call stores for `reqC1` under a
stand-in hash function mapping every string to `"h"`. -/
def wC1 : WithdrawalState := newWithdrawalBtc "withdraw_h" reqC1 5 "w1" 0

/-- Witness for C1: both hypotheses discharged on a concrete first call. -/
theorem C1_withdraw_end_idempotent_witness :
    ∃ w : WithdrawalState,
      get_withdrawal_by_idempotency_key
          (idempotencyKey (fun _ => "h") reqC1) [wC1] = some w ∧
        w.withdrawal_id = "w1" ∧
        withdraw_end (fun _ => "h") reqC1 "w2" 1 [wC1] =
          .ok ⟨w.withdrawal_id, w.status⟩ [wC1] :=
  C1_withdraw_end_idempotent (fun _ => "h") reqC1 "w1" "w2" 0 1 [] [wC1]
    ⟨"w1", .REQUESTED⟩ (by decide) (by decide)

/-! ### The WAITING_BALANCE_UPDATE transition (withdrawal_orchestrator.py) -/

/-- Result of one evaluation of the `WAITING_BALANCE_UPDATE` branch of
`process_withdrawal`. -/
inductive BalanceWaitOutcome
  | advanceToSweeping
  | failWith (error_code : String) (retryable : Bool)
  | retryAfter (seconds : Int)
deriving DecidableEq, Repr

/-- Python `withdrawal.balance_wait_started_at or withdrawal.updated_at`
(falsy `or`: `None` and `0` both fall back to `updated_at`). -/
def waitStartedAt (w : WithdrawalState) : Int :=
  match w.balance_wait_started_at with
  | some v => if v = 0 then w.updated_at else v
  | none => w.updated_at

/-- Python `withdrawal.baseline_balance_sats or 0`. -/
def baselineOrZero (w : WithdrawalState) : Int :=
  match w.baseline_balance_sats with
  | some v => if v = 0 then 0 else v
  | none => 0

/-- The `WAITING_BALANCE_UPDATE` branch of `process_withdrawal`
(`src/src/bitcoinl1/withdrawal_orchestrator.py`): the 600-second timeout is
checked first; only past it are transfers refreshed and the balance fetched
(`balance` is the `vanilla.spendable` the node reports at that moment), and
when the balance has not increased a 40-second retry is scheduled with the
status left unchanged.  `now` models `int(datetime.utcnow().timestamp())`. -/
def waiting_balance_update_step (w : WithdrawalState) (now balance : Int) :
    BalanceWaitOutcome :=
  if now - waitStartedAt w ≥ 600 then .failWith "BALANCE_UPDATE_TIMEOUT" true
  else if balance > baselineOrZero w then .advanceToSweeping
  else .retryAfter 40

theorem baselineOrZero_eq (w : WithdrawalState) :
    baselineOrZero w = w.baseline_balance_sats.getD 0 := by
  unfold baselineOrZero
  cases h : w.baseline_balance_sats with
  | none => rfl
  | some v =>
    by_cases hv : v = 0
    · subst hv; rfl
    · simp [hv]

/-- C4 (amended).  In `WAITING_BALANCE_UPDATE` the timeout is evaluated
before the balance: if at least 600 seconds have elapsed since
`balance_wait_started_at` (falling back to `updated_at` when unset) the
withdrawal fails with `BALANCE_UPDATE_TIMEOUT`, retryable, even if the
balance has already increased; below the timeout the withdrawal advances
to `SWEEPING_OUTPUTS` exactly when the spendable vanilla balance strictly
exceeds `baseline_balance_sats`, and otherwise a 40-second retry is
scheduled with the status unchanged. -/
theorem C4_waiting_balance_update (w : WithdrawalState) (now balance : Int) :
    (now - waitStartedAt w ≥ 600 →
      waiting_balance_update_step w now balance =
        .failWith "BALANCE_UPDATE_TIMEOUT" true) ∧
    (now - waitStartedAt w < 600 →
      balance > w.baseline_balance_sats.getD 0 →
      waiting_balance_update_step w now balance = .advanceToSweeping) ∧
    (now - waitStartedAt w < 600 →
      ¬ balance > w.baseline_balance_sats.getD 0 →
      waiting_balance_update_step w now balance = .retryAfter 40) := by
  refine ⟨fun h => ?_, fun h hb => ?_, fun h hb => ?_⟩
  · unfold waiting_balance_update_step
    rw [if_pos h]
  · unfold waiting_balance_update_step
    rw [if_neg (not_le.mpr h), if_pos (by rw [baselineOrZero_eq]; exact hb)]
  · unfold waiting_balance_update_step
    rw [if_neg (not_le.mpr h), if_neg (by rw [baselineOrZero_eq]; exact hb)]

/-- Concrete withdrawal sitting in `WAITING_BALANCE_UPDATE` since time 100
with baseline 0, for the C4 counterexample. -/
def cexWithdrawalC4 : WithdrawalState :=
  { withdrawal_id := "w4", idempotency_key := "withdraw_k4",
    address_or_rgbinvoice := "bc1qdest", amount_sats_requested := none,
    amount_sats_sent := none, asset := none, source := "channels_only",
    channel_ids_to_close := ["ch1"], close_txids := ["ch1"],
    sweep_txid := none, fee_sats := none, fee_rate_sat_per_vb := some 5,
    fee_rate := some 5, close_mode := "cooperative",
    deduct_fee_from_amount := true, baseline_balance_sats := some 0,
    balance_wait_started_at := some 100,
    status := .WAITING_BALANCE_UPDATE, error_code := none,
    error_message := none, retryable := false, attempt_count := 3,
    last_attempt_at := some 100, created_at := 90, updated_at := 100 }

/-- C4 counterexample to the claim as stated: at `now = 700` the balance
(50) strictly exceeds the baseline (0), so the claimed ordering would
advance the withdrawal to `SWEEPING_OUTPUTS`; the code instead fails it
with `BALANCE_UPDATE_TIMEOUT` because the 600-second timeout is checked
before the balance. -/
theorem C4_claim_counterexample :
    (50 : Int) > cexWithdrawalC4.baseline_balance_sats.getD 0 ∧
    waiting_balance_update_step cexWithdrawalC4 700 50 ≠
      BalanceWaitOutcome.advanceToSweeping ∧
    waiting_balance_update_step cexWithdrawalC4 700 50 =
      BalanceWaitOutcome.failWith "BALANCE_UPDATE_TIMEOUT" true := by decide

/-- Witness for C4: the timeout conjunct evaluated at the concrete input. -/
theorem C4_waiting_balance_update_witness :
    waiting_balance_update_step cexWithdrawalC4 700 50 =
      BalanceWaitOutcome.failWith "BALANCE_UPDATE_TIMEOUT" true :=
  (C4_waiting_balance_update cexWithdrawalC4 700 50).1 (by decide)

/-! ### Wallet locks (src/src/queue/locks.py) and WalletRefresher -/

/-- The `wallet_locks` table: `(xpub_van, expires_at)` rows, `expires_at`
as an epoch value (the Python code formats it as a UTC string). -/
abbrev LockDB := List (String × Int)

/-- The stored routine `cleanup_expired_locks()`:
`DELETE FROM wallet_locks WHERE expires_at < now()`. -/
def cleanup_expired_locks (now : Int) (db : LockDB) : LockDB :=
  db.filter fun l => !(l.2 < now)

/-- `acquire_wallet_lock` from `src/src/queue/locks.py` (exception-free
semantics; on a database error the Python code returns `False`): clean up
expired locks, then `INSERT ... ON CONFLICT (xpub_van) DO NOTHING
RETURNING xpub_van` and report whether the row was inserted. -/
def acquire_wallet_lock (xpub_van : String) (ttl now : Int) (db : LockDB) :
    Bool × LockDB :=
  let db1 := cleanup_expired_locks now db
  if db1.any fun l => l.1 = xpub_van then (false, db1)
  else (true, db1 ++ [(xpub_van, now + ttl)])

/-- `release_wallet_lock` from `src/src/queue/locks.py`
(`DELETE FROM wallet_locks WHERE xpub_van = %s`). -/
def release_wallet_lock (xpub_van : String) (db : LockDB) : LockDB :=
  db.filter fun l => !(l.1 = xpub_van)

/-- One entry of the `/wallet/refresh` reply map:
`\x7bupdated_status?, failure?: \x7bdetails\x7d\x7d`. -/
structure RefreshFailure where
  details : Option String
deriving DecidableEq, Repr

structure RefreshEntry where
  updated_status : Option String
  failure : Option RefreshFailure
deriving DecidableEq, Repr

/-- The `/wallet/refresh` reply, keyed by `str(batch_transfer_idx)`. -/
abbrev RefreshResp := List (String × RefreshEntry)

/-- `WalletRefresher.refresh` from
`workers/processors/transfer_watcher.py`: acquire the wallet lock (when it
is held elsewhere, skip the cycle and return `None` without calling
`refresh_wallet`), call `refresh_wallet` — `refreshOutcome = none` models
that call raising, in which case the exception is logged and `None`
returned — and release the lock in the `finally` block on every path.
The Bool component records whether `refresh_wallet` was invoked. -/
def WalletRefresher.refresh (xpub_van : String) (WALLET_LOCK_TTL now : Int)
    (refreshOutcome : Option RefreshResp) (db : LockDB) :
    Option RefreshResp × LockDB × Bool :=
  if (acquire_wallet_lock xpub_van WALLET_LOCK_TTL now db).1 then
    (refreshOutcome,
      release_wallet_lock xpub_van
        (acquire_wallet_lock xpub_van WALLET_LOCK_TTL now db).2, true)
  else (none, (acquire_wallet_lock xpub_van WALLET_LOCK_TTL now db).2, false)

/-- After `release_wallet_lock` no lock row for the wallet remains. -/
theorem any_release_false (xv : String) (db : LockDB) :
    ((release_wallet_lock xv db).any fun l => l.1 = xv) = false := by
  induction db with
  | nil => rfl
  | cons l0 ls ih =>
    by_cases h0 : l0.1 = xv
    · simp only [release_wallet_lock, List.filter_cons] at ih ⊢
      simp [h0, ih]
    · simp only [release_wallet_lock, List.filter_cons] at ih ⊢
      simp [h0, ih]

/-- C10.  Every invocation of `WalletRefresher.refresh` either returns
`None` without calling `refresh_wallet` (when the lock is not acquired,
leaving the lock table exactly as `acquire_wallet_lock` left it), or calls
`refresh_wallet` with the lock held and releases it before returning —
whether the call returns a reply or raises — so no path leaves this
invocation's wallet lock held. -/
theorem C10_refresh_lock_discipline (xv : String) (ttl now : Int)
    (outcome : Option RefreshResp) (db : LockDB) :
    ((acquire_wallet_lock xv ttl now db).1 = false →
      WalletRefresher.refresh xv ttl now outcome db =
        (none, (acquire_wallet_lock xv ttl now db).2, false)) ∧
    ((acquire_wallet_lock xv ttl now db).1 = true →
      (WalletRefresher.refresh xv ttl now outcome db).2.2 = true ∧
      (WalletRefresher.refresh xv ttl now outcome db).1 = outcome ∧
      ((acquire_wallet_lock xv ttl now db).2.any fun l => l.1 = xv) = true ∧
      ((WalletRefresher.refresh xv ttl now outcome db).2.1.any
          fun l => l.1 = xv) = false) := by
  constructor
  · intro h
    simp [WalletRefresher.refresh, h]
  · intro h
    simp only [WalletRefresher.refresh, h, if_true]
    refine ⟨trivial, trivial, ?_, ?_⟩
    · unfold acquire_wallet_lock at h ⊢
      by_cases hheld : ((cleanup_expired_locks now db).any
          fun l => l.1 = xv) = true
      · rw [if_pos hheld] at h
        exact absurd h (by simp)
      · rw [if_neg hheld]
        simp
    · exact any_release_false xv _

/-- Witness for C10: the acquired branch on an empty lock table. -/
theorem C10_refresh_lock_discipline_witness :
    (WalletRefresher.refresh "x" 30 0 (some []) []).2.2 = true ∧
    (WalletRefresher.refresh "x" 30 0 (some []) []).1 = some [] ∧
    ((acquire_wallet_lock "x" 30 0 []).2.any fun l => l.1 = "x") = true ∧
    ((WalletRefresher.refresh "x" 30 0 (some []) []).2.1.any
        fun l => l.1 = "x") = false :=
  (C10_refresh_lock_discipline "x" 30 0 (some []) []).2 (by decide)

/-! ### The transfer-watcher loop
(workers/processors/transfer_watcher.py, watch_transfer)

One iteration of the `while not shutdown_flag()` loop, with the node replies
it consumes supplied as an environment.  The loop comment at its head reads
"Removed special handling for watchers without asset_id": the
`ExpirationChecker` class exists in the file but no code invokes it, so the
loop itself never checks the watcher row's `expires_at` and never enqueues
jobs. -/

structure WalletCredentials where
  xpub_van : String
  xpub_col : String
  master_fingerprint : String
deriving DecidableEq, Repr

/-- Arguments of one `enqueue_refresh_job` call recorded in a trace. -/
structure EnqueueCall where
  xpub_van : String
  xpub_col : String
  master_fingerprint : String
  trigger : String
deriving DecidableEq, Repr

/-- The node replies one loop iteration consumes:
`monitor.get_transfer_status()`, `monitor.find_transfer_in_all_assets()`
(a pair of transfer and optional asset id), whether the wallet lock was
acquired, and the `refresh_wallet` reply (`none` models it raising). -/
structure TickEnv where
  transferLookup : Option Transfer
  searchResult : Option (Transfer × Option String)
  lockAcquired : Bool
  refreshReply : Option RefreshResp
deriving DecidableEq, Repr

inductive TickOutcome
  | finished (finalStatus : String)
  | continueLoop (assetId : Option String) (refreshCount : Nat)
deriving DecidableEq, Repr

structure TickResult where
  db : WatcherDB
  enqueued : List EnqueueCall
  failTransfersCalls : List Int
  outcome : TickOutcome
deriving DecidableEq, Repr

/-- Dict lookup `refresh_response[str(batch_transfer_idx)]`. -/
def respLookup (resp : RefreshResp) (k : String) : Option RefreshEntry :=
  (resp.find? fun p => p.1 = k).map Prod.snd

/-- The failure check inside the refresh branch of the loop:
`batch_idx_str in refresh_response` and
`failure and failure.get("details")` (a falsy — absent or empty — failure
dict is `none`, and an empty `details` string is falsy). -/
def tickFailureDetected (transfer : Option Transfer) (r : RefreshResp) : Bool :=
  match transfer with
  | none => false
  | some t =>
    match t.batch_transfer_idx with
    | none => false
    | some idx =>
      match respLookup r (toString idx) with
      | none => false
      | some entry =>
        match entry.failure with
        | none => false
        | some f =>
          match f.details with
          | none => false
          | some d => !(d = "")

/-- The transfer-resolution phase of one iteration (lines up to the
`if transfer:` block): take `get_transfer_status()`, and when it found
nothing and `asset_id` is falsy, search all assets; a hit with a truthy
asset id updates the watcher row (`update_watcher_asset_and_expiration`)
and the loop's `asset_id`. -/
def tickResolve (xv rid : String) (asset_id : Option String) (env : TickEnv)
    (db : WatcherDB) : Option Transfer × Option String × WatcherDB :=
  match env.transferLookup with
  | some t => (some t, asset_id, db)
  | none =>
    if !optStrTruthy asset_id then
      match env.searchResult with
      | some (t, found) =>
        if optStrTruthy found then
          (some t, found,
            update_watcher_asset_and_expiration xv rid (found.getD "")
              t.expiration db)
        else (some t, asset_id, db)
      | none => (none, asset_id, db)
    else (none, asset_id, db)

/-- The refresh phase at the bottom of one iteration: on a truthy reply,
bump the refresh counter, finish as `failed` when the reply reports failure
details for the transfer's batch index, else record `watching` with the new
counter; on a falsy reply (`None` from a skipped or raised refresh, or an
empty dict), change nothing. -/
def tickRefreshPhase (xv rid : String) (asset_id2 : Option String)
    (refresh_count : Nat) (transfer : Option Transfer)
    (resp : Option RefreshResp) (now : Int) (db : WatcherDB) : TickResult :=
  match resp with
  | none =>
    { db := db, enqueued := [], failTransfersCalls := [],
      outcome := .continueLoop asset_id2 refresh_count }
  | some r =>
    if r = [] then
      { db := db, enqueued := [], failTransfersCalls := [],
        outcome := .continueLoop asset_id2 refresh_count }
    else if tickFailureDetected transfer r then
      { db := stop_watcher xv rid
          (update_watcher_status xv rid "failed" (some (refresh_count + 1)) now db),
        enqueued := [], failTransfersCalls := [],
        outcome := .finished "failed" }
    else
      { db := update_watcher_status xv rid "watching"
          (some (refresh_count + 1)) now db,
        enqueued := [], failTransfersCalls := [],
        outcome := .continueLoop asset_id2 (refresh_count + 1) }

/-- The action phase of one iteration given the resolved transfer. -/
def tickAct (xv rid : String) (transfer : Option Transfer)
    (asset_id2 : Option String) (db2 : WatcherDB) (refresh_count : Nat)
    (dur now : Int) (resp : Option RefreshResp) : TickResult :=
  match transfer with
  | some t =>
    if is_transfer_completed t then
      { db := stop_watcher xv rid
          (update_watcher_status xv rid (normalize_transfer_status t.status)
            (some refresh_count) now db2),
        enqueued := [], failTransfersCalls := [],
        outcome := .finished (normalize_transfer_status t.status) }
    else if is_transfer_expired now t then
      { db := stop_watcher xv rid
          (update_watcher_status xv rid "expired" (some refresh_count) now db2),
        enqueued := [],
        failTransfersCalls :=
          if can_cancel_transfer dur now t then
            match t.batch_transfer_idx with
            | some idx => [idx]
            | none => []
          else [],
        outcome := .finished "expired" }
    else tickRefreshPhase xv rid asset_id2 refresh_count (some t) resp now db2
  | none => tickRefreshPhase xv rid asset_id2 refresh_count none resp now db2

/-- One iteration of the `watch_transfer` loop. -/
def watch_transfer_tick (creds : WalletCredentials) (recipient_id : String)
    (asset_id : Option String) (refresh_count : Nat) (dur now : Int)
    (env : TickEnv) (db : WatcherDB) : TickResult :=
  tickAct creds.xpub_van recipient_id
    (tickResolve creds.xpub_van recipient_id asset_id env db).1
    (tickResolve creds.xpub_van recipient_id asset_id env db).2.1
    (tickResolve creds.xpub_van recipient_id asset_id env db).2.2
    refresh_count dur now
    (if env.lockAcquired then env.refreshReply else none)

/-- `ExpirationChecker.check_and_handle_expiration` from
`workers/processors/transfer_watcher.py` (defined in the file, invoked by
no caller): when the watcher exists and its integer `expires_at` is truthy
and not in the future, enqueue one `sync` job and report the expiry as
handled. -/
def check_and_handle_expiration (creds : WalletCredentials) (rid : String)
    (now : Int) (db : WatcherDB) : Bool × List EnqueueCall :=
  match get_watcher_status creds.xpub_van rid db with
  | none => (false, [])
  | some watcher =>
    match watcher.expires_at with
    | none => (false, [])
    | some e =>
      if e = 0 then (false, [])
      else if now < e then (false, [])
      else
        (true, [{ xpub_van := creds.xpub_van, xpub_col := creds.xpub_col,
                  master_fingerprint := creds.master_fingerprint,
                  trigger := "sync" }])

/-- The refresh phase never enqueues jobs. -/
theorem tickRefreshPhase_enqueued (xv rid : String) (aid : Option String)
    (rc : Nat) (tr : Option Transfer) (resp : Option RefreshResp) (now : Int)
    (db : WatcherDB) :
    (tickRefreshPhase xv rid aid rc tr resp now db).enqueued = [] := by
  cases resp with
  | none => rfl
  | some r =>
    simp only [tickRefreshPhase]
    by_cases h1 : r = []
    · rw [if_pos h1]
    · rw [if_neg h1]
      by_cases h2 : tickFailureDetected tr r = true
      · rw [if_pos h2]
      · rw [if_neg h2]

/-- The action phase never enqueues jobs. -/
theorem tickAct_enqueued (xv rid : String) (transfer : Option Transfer)
    (aid2 : Option String) (db2 : WatcherDB) (rc : Nat) (dur now : Int)
    (resp : Option RefreshResp) :
    (tickAct xv rid transfer aid2 db2 rc dur now resp).enqueued = [] := by
  cases transfer with
  | none => exact tickRefreshPhase_enqueued _ _ _ _ _ _ _ _
  | some t =>
    simp only [tickAct]
    by_cases hc : is_transfer_completed t = true
    · rw [if_pos hc]
    · rw [if_neg hc]
      by_cases he : is_transfer_expired now t = true
      · rw [if_pos he]
      · rw [if_neg he]
        exact tickRefreshPhase_enqueued _ _ _ _ _ _ _ _

/-- C3 (amended).  The `watch_transfer` loop enqueues no refresh job on any
iteration — in particular no `sync` job when a null-asset watcher's
`expires_at` has elapsed (cf. the loop comment "Removed special handling
for watchers without asset_id") — while the uncalled
`ExpirationChecker.check_and_handle_expiration` would indeed enqueue
exactly one `sync` job for the wallet and report the watcher expired. -/
theorem C3_watcher_expiry_not_in_loop :
    (∀ (creds : WalletCredentials) (rid : String) (aid : Option String)
        (rc : Nat) (dur now : Int) (env : TickEnv) (db : WatcherDB),
      (watch_transfer_tick creds rid aid rc dur now env db).enqueued = []) ∧
    (∀ (creds : WalletCredentials) (rid : String) (now : Int)
        (db : WatcherDB) (w : WatcherRow) (e : Int),
      get_watcher_status creds.xpub_van rid db = some w →
      w.expires_at = some e → e ≠ 0 → e ≤ now →
      check_and_handle_expiration creds rid now db =
        (true, [{ xpub_van := creds.xpub_van, xpub_col := creds.xpub_col,
                  master_fingerprint := creds.master_fingerprint,
                  trigger := "sync" }])) := by
  constructor
  · intro creds rid aid rc dur now env db
    exact tickAct_enqueued _ _ _ _ _ _ _ _ _
  · intro creds rid now db w e hget hexp he0 hle
    simp only [check_and_handle_expiration, hget, hexp]
    rw [if_neg he0, if_neg (not_lt.mpr hle)]

/-- The expired null-asset watcher of the C3 counterexample. -/
def cexWatcherC3 : WatcherRow :=
  { xpub_van := "xv3", xpub_col := "xc3", master_fingerprint := "mf3",
    recipient_id := "r3", asset_id := none, status := "watching",
    refresh_count := 0, created_at := 90, last_refresh := none,
    expires_at := some 100 }

def credsC3 : WalletCredentials :=
  { xpub_van := "xv3", xpub_col := "xc3", master_fingerprint := "mf3" }

/-- The loop iteration environment of the C3 counterexample: the transfer
is found nowhere and the refresh is skipped. -/
def cexEnvC3 : TickEnv :=
  { transferLookup := none, searchResult := none, lockAcquired := false,
    refreshReply := none }

/-- C3 counterexample: the watcher has `asset_id = NULL` and its
`expires_at = 100` has elapsed at `now = 300`, yet the next iteration of
the transfer-watcher loop enqueues nothing, leaves the watcher row exactly
as it was (status `watching`), and does not transition it to `expired`. -/
theorem C3_claim_counterexample :
    cexWatcherC3.asset_id = none ∧ cexWatcherC3.expires_at = some 100 ∧
    ((100 : Int) ≤ 300) ∧
    (watch_transfer_tick credsC3 "r3" none 0 86400 300 cexEnvC3
        [cexWatcherC3]).enqueued = [] ∧
    (watch_transfer_tick credsC3 "r3" none 0 86400 300 cexEnvC3
        [cexWatcherC3]).db = [cexWatcherC3] ∧
    (watch_transfer_tick credsC3 "r3" none 0 86400 300 cexEnvC3
        [cexWatcherC3]).outcome = TickOutcome.continueLoop none 0 := by decide

/-- Witness for C3: both conjuncts at concrete inputs — the loop iteration
of the counterexample enqueues nothing, and `check_and_handle_expiration`
on the same expired watcher would enqueue the sync job. -/
theorem C3_watcher_expiry_not_in_loop_witness :
    (watch_transfer_tick credsC3 "r3" none 0 86400 300 cexEnvC3
        [cexWatcherC3]).enqueued = [] ∧
    check_and_handle_expiration credsC3 "r3" 300 [cexWatcherC3] =
      (true, [{ xpub_van := "xv3", xpub_col := "xc3",
                master_fingerprint := "mf3", trigger := "sync" }]) :=
  ⟨C3_watcher_expiry_not_in_loop.1 credsC3 "r3" none 0 86400 300 cexEnvC3
      [cexWatcherC3],
   C3_watcher_expiry_not_in_loop.2 credsC3 "r3" 300 [cexWatcherC3]
      cexWatcherC3 100 (by decide) (by decide) (by decide) (by decide)⟩

/-- After `stop_watcher` no row with the key remains visible. -/
theorem get_after_stop (xv rid : String) (db : WatcherDB) :
    get_watcher_status xv rid (stop_watcher xv rid db) = none := by
  unfold get_watcher_status stop_watcher
  induction db with
  | nil => rfl
  | cons w ws ih =>
    by_cases h0 : watcherKey xv rid w = true
    · simp only [List.filter_cons, h0]
      exact ih
    · simp only [List.filter_cons, h0]
      simp only [Bool.not_false, if_pos]
      rw [List.find?_cons]
      simp only [h0]
      exact ih

/-- `update_watcher_status` on a key with no row is a no-op. -/
theorem update_watcher_status_absent (xv rid st : String) (rc : Option Nat)
    (now : Int) (db : WatcherDB)
    (h : get_watcher_status xv rid db = none) :
    update_watcher_status xv rid st rc now db = db := by
  unfold get_watcher_status at h
  unfold update_watcher_status
  induction db with
  | nil => rfl
  | cons w ws ih =>
    by_cases h0 : watcherKey xv rid w = true
    · rw [List.find?_cons] at h
      simp [h0] at h
    · rw [List.find?_cons] at h
      simp only [h0] at h
      simp only [List.map_cons, h0, if_neg]
      rw [ih h]
      simp

/-- Keyed rows carry the written status after `update_watcher_status`. -/
theorem mem_update_status (xv rid st : String) (rc : Option Nat) (now : Int)
    (db : WatcherDB) (w : WatcherRow)
    (hw : w ∈ update_watcher_status xv rid st rc now db)
    (hk : watcherKey xv rid w = true) : w.status = st := by
  unfold update_watcher_status at hw
  rcases List.mem_map.mp hw with ⟨w0, -, hw0⟩
  by_cases h0 : watcherKey xv rid w0 = true
  · rw [if_pos h0] at hw0
    cases rc with
    | some n => subst hw0; rfl
    | none => subst hw0; rfl
  · rw [if_neg h0] at hw0
    subst hw0
    exact absurd hk h0

/-- `update_watcher_asset_and_expiration` preserves status and key of every
row. -/
theorem mem_update_asset (xv rid : String) (aid : String)
    (expn : Option Int) (db : WatcherDB) (w : WatcherRow)
    (hw : w ∈ update_watcher_asset_and_expiration xv rid aid expn db) :
    ∃ w0 ∈ db, w.status = w0.status ∧
      watcherKey xv rid w = watcherKey xv rid w0 := by
  unfold update_watcher_asset_and_expiration at hw
  rcases List.mem_map.mp hw with ⟨w0, hmem, hw0⟩
  by_cases h0 : watcherKey xv rid w0 = true
  · rw [if_pos h0] at hw0
    subst hw0
    exact ⟨w0, hmem, rfl, rfl⟩
  · rw [if_neg h0] at hw0
    subst hw0
    exact ⟨w0, hmem, rfl, rfl⟩

/-- The resolution phase either leaves the watcher table alone or applies
`update_watcher_asset_and_expiration` to it. -/
theorem tickResolve_db (xv rid : String) (aid : Option String)
    (env : TickEnv) (db : WatcherDB) :
    (tickResolve xv rid aid env db).2.2 = db ∨
    ∃ a e, (tickResolve xv rid aid env db).2.2 =
      update_watcher_asset_and_expiration xv rid a e db := by
  obtain ⟨tl, sr, la, rr⟩ := env
  cases tl with
  | some t => exact Or.inl rfl
  | none =>
    cases sr with
    | none =>
      by_cases ha : (!optStrTruthy aid) = true
      · left; simp [tickResolve, ha]
      · left; simp [tickResolve, ha]
    | some p =>
      rcases p with ⟨t, found⟩
      by_cases ha : (!optStrTruthy aid) = true
      · by_cases hf : optStrTruthy found = true
        · right
          exact ⟨found.getD "", t.expiration, by simp [tickResolve, ha, hf]⟩
        · left; simp [tickResolve, ha, hf]
      · left; simp [tickResolve, ha]

/-- Status invariant carried through the resolution phase. -/
theorem tickResolve_status (xv rid : String) (aid : Option String)
    (env : TickEnv) (db : WatcherDB)
    (hdb : ∀ w ∈ db, watcherKey xv rid w = true → w.status = "watching") :
    ∀ w ∈ (tickResolve xv rid aid env db).2.2,
      watcherKey xv rid w = true → w.status = "watching" := by
  rcases tickResolve_db xv rid aid env db with h | ⟨a, e, h⟩
  · rw [h]; exact hdb
  · rw [h]
    intro w hw hk
    rcases mem_update_asset xv rid a e db w hw with ⟨w0, hmem, hst, hkey⟩
    rw [hst]
    exact hdb w0 hmem (hkey ▸ hk)

/-- Terminality through the refresh phase. -/
theorem tickRefreshPhase_terminality (xv rid : String)
    (aid2 : Option String) (rc : Nat) (tr : Option Transfer)
    (resp : Option RefreshResp) (now : Int) (db2 : WatcherDB)
    (hdb2 : ∀ w ∈ db2, watcherKey xv rid w = true → w.status = "watching") :
    (∀ fs, (tickRefreshPhase xv rid aid2 rc tr resp now db2).outcome =
        .finished fs →
      get_watcher_status xv rid
        (tickRefreshPhase xv rid aid2 rc tr resp now db2).db = none) ∧
    (∀ a r2, (tickRefreshPhase xv rid aid2 rc tr resp now db2).outcome =
        .continueLoop a r2 →
      ∀ w ∈ (tickRefreshPhase xv rid aid2 rc tr resp now db2).db,
        watcherKey xv rid w = true → w.status = "watching") := by
  cases resp with
  | none => exact ⟨fun fs h => by simp [tickRefreshPhase] at h,
      fun a r2 _ => hdb2⟩
  | some r =>
    simp only [tickRefreshPhase]
    by_cases h1 : r = []
    · rw [if_pos h1]
      exact ⟨fun fs h => by simp at h, fun a r2 _ => hdb2⟩
    · rw [if_neg h1]
      by_cases h2 : tickFailureDetected tr r = true
      · rw [if_pos h2]
        exact ⟨fun fs _ => get_after_stop xv rid _,
          fun a r2 h => by simp at h⟩
      · rw [if_neg h2]
        refine ⟨fun fs h => by simp at h, fun a r2 _ => ?_⟩
        intro w hw hk
        have hw2 : w ∈ update_watcher_status xv rid "watching"
            (some (rc + 1)) now db2 := hw
        exact mem_update_status xv rid "watching" (some (rc + 1)) now db2 w hw2 hk

/-- Terminality through the action phase. -/
theorem tickAct_terminality (xv rid : String) (transfer : Option Transfer)
    (aid2 : Option String) (db2 : WatcherDB) (rc : Nat) (dur now : Int)
    (resp : Option RefreshResp)
    (hdb2 : ∀ w ∈ db2, watcherKey xv rid w = true → w.status = "watching") :
    (∀ fs, (tickAct xv rid transfer aid2 db2 rc dur now resp).outcome =
        .finished fs →
      get_watcher_status xv rid
        (tickAct xv rid transfer aid2 db2 rc dur now resp).db = none) ∧
    (∀ a r2, (tickAct xv rid transfer aid2 db2 rc dur now resp).outcome =
        .continueLoop a r2 →
      ∀ w ∈ (tickAct xv rid transfer aid2 db2 rc dur now resp).db,
        watcherKey xv rid w = true → w.status = "watching") := by
  cases transfer with
  | none => exact tickRefreshPhase_terminality xv rid aid2 rc none resp now db2 hdb2
  | some t =>
    simp only [tickAct]
    by_cases hc : is_transfer_completed t = true
    · rw [if_pos hc]
      exact ⟨fun fs _ => get_after_stop xv rid _, fun a r2 h => by simp at h⟩
    · rw [if_neg hc]
      by_cases he : is_transfer_expired now t = true
      · rw [if_pos he]
        exact ⟨fun fs _ => get_after_stop xv rid _, fun a r2 h => by simp at h⟩
      · rw [if_neg he]
        exact tickRefreshPhase_terminality xv rid aid2 rc (some t) resp now db2 hdb2

/-- C7.  Whenever one iteration of the `watch_transfer` loop sets a
terminal watcher status (the `finished` outcomes `settled` / `failed` /
`expired`), the same iteration deletes the watcher row, so no row with the
key survives; an iteration that continues leaves every row with the key in
status `watching` (assuming it started there); and once the row is gone,
any subsequent `update_watcher_status` on the key is a no-op. -/
theorem C7_watcher_terminality (creds : WalletCredentials) (rid : String)
    (aid : Option String) (rc : Nat) (dur now : Int) (env : TickEnv)
    (db : WatcherDB)
    (hdb : ∀ w ∈ db, watcherKey creds.xpub_van rid w = true →
      w.status = "watching") :
    (∀ fs, (watch_transfer_tick creds rid aid rc dur now env db).outcome =
        .finished fs →
      get_watcher_status creds.xpub_van rid
        (watch_transfer_tick creds rid aid rc dur now env db).db = none) ∧
    (∀ a r2, (watch_transfer_tick creds rid aid rc dur now env db).outcome =
        .continueLoop a r2 →
      ∀ w ∈ (watch_transfer_tick creds rid aid rc dur now env db).db,
        watcherKey creds.xpub_van rid w = true → w.status = "watching") ∧
    (∀ (db2 : WatcherDB) (st : String) (rc2 : Option Nat) (now2 : Int),
      get_watcher_status creds.xpub_van rid db2 = none →
      update_watcher_status creds.xpub_van rid st rc2 now2 db2 = db2) := by
  have hres := tickAct_terminality creds.xpub_van rid
    (tickResolve creds.xpub_van rid aid env db).1
    (tickResolve creds.xpub_van rid aid env db).2.1
    (tickResolve creds.xpub_van rid aid env db).2.2 rc dur now
    (if env.lockAcquired then env.refreshReply else none)
    (tickResolve_status creds.xpub_van rid aid env db hdb)
  exact ⟨hres.1, hres.2,
    fun db2 st rc2 now2 h => update_watcher_status_absent _ _ _ _ _ _ h⟩

/-- A settled transfer as the node would report it. -/
def settledTransferC7 : Transfer :=
  { status := .venum "SETTLED", kind := .venum "RECEIVE_BLIND",
    expiration := none, batch_transfer_idx := some 1,
    recipient_id := some "r3" }

/-- A loop-iteration environment in which the transfer reports settled. -/
def settledEnvC7 : TickEnv :=
  { transferLookup := some settledTransferC7, searchResult := none,
    lockAcquired := false, refreshReply := none }

/-- Witness for C7: a settling iteration on a concrete one-row table —
the finished tick leaves no row for the key. -/
theorem C7_watcher_terminality_witness :
    get_watcher_status "xv3" "r3"
      (watch_transfer_tick credsC3 "r3" none 0 86400 300 settledEnvC7
        [cexWatcherC3]).db = none :=
  (C7_watcher_terminality credsC3 "r3" none 0 86400 300 settledEnvC7
    [cexWatcherC3] (by decide)).1 "settled" (by decide)

end RGBNode
